import Mathlib

/-
Verification of the event-stream client connection binding
(source/event_stream.c). The binding is a reference-counted lifetime
controller that bridges a native event-stream RPC connection and a
garbage-collected host (node) wrapper. We embed the libuv-thread
handlers as pure functions over an explicit binding state, recording
observable actions (host callback dispatches, native close/release
calls, binding ref-count operations, napi reference deletions) as an
effect trace.
-/

namespace EventStream

/-- Observable actions performed by handlers in the libuv thread. -/
inductive Effect where
  | bindingAcquire
  | bindingRelease
  | hostSetupCallback (error_code : Nat)
  | hostShutdownCallback (error_code : Nat)
  | nativeClose (conn : Nat)
  | nativeRelease (conn : Nat)
  | deleteRef (r : Nat)
  | throwError
deriving DecidableEq

def Effect.isBindingAcquire : Effect → Bool
  | Effect.bindingAcquire => true
  | _ => false

def Effect.isBindingRelease : Effect → Bool
  | Effect.bindingRelease => true
  | _ => false

def Effect.isHostSetup : Effect → Bool
  | Effect.hostSetupCallback _ => true
  | _ => false

def Effect.isHostShutdown : Effect → Bool
  | Effect.hostShutdownCallback _ => true
  | _ => false

def Effect.isNativeClose : Effect → Bool
  | Effect.nativeClose _ => true
  | _ => false

def Effect.isNativeRelease : Effect → Bool
  | Effect.nativeRelease _ => true
  | _ => false

/-- Number of effects in a trace satisfying a classifier. -/
def countEff (p : Effect → Bool) (l : List Effect) : Nat :=
  (l.filter p).length

/-- State of `struct aws_event_stream_client_connection_binding`.
Native pointers are represented by `Option Nat` (NULL is `none`);
`ref_count` is the value of the embedded `aws_ref_count`; the three
threadsafe-function handles are opaque (`Option Nat`). The cached
socket options are opaque (`Nat`). -/
structure aws_event_stream_client_connection_binding where
  ref_count : Nat
  connection : Option Nat
  is_closed : Bool
  host : Option String
  port : Nat
  socket_options : Nat
  using_tls : Bool
  node_event_stream_client_connection_ref : Option Nat
  node_event_stream_client_connection_external_ref : Option Nat
  on_connection_setup : Option Nat
  on_connection_shutdown : Option Nat
  on_protocol_message : Option Nat
deriving DecidableEq

abbrev Binding := aws_event_stream_client_connection_binding

/-- Model of `s_close_binding(env, binding)`: sets `is_closed`, detaches
both napi references, and deletes them when an environment is available
(`env = true` models a non-NULL `napi_env`). -/
def s_close_binding (env : Bool) (binding : Binding) : Binding × List Effect :=
  let extRef := binding.node_event_stream_client_connection_external_ref
  let connRef := binding.node_event_stream_client_connection_ref
  let b := { binding with
    is_closed := true,
    node_event_stream_client_connection_external_ref := none,
    node_event_stream_client_connection_ref := none }
  let effs :=
    if env then
      (match extRef with
        | some r => [Effect.deleteRef r]
        | none => []) ++
      (match connRef with
        | some r => [Effect.deleteRef r]
        | none => [])
    else []
  (b, effs)

/-- Outcome of a handler that can throw a recoverable napi error or trip
an `AWS_FATAL_ASSERT` (which aborts the process). -/
inductive Step where
  | fatal
  | err (b : Binding) (effs : List Effect)
  | ok (b : Binding) (effs : List Effect)
deriving DecidableEq

def Step.effects : Step → List Effect
  | Step.fatal => []
  | Step.err _ e => e
  | Step.ok _ e => e

/-- Model of `s_napi_event_stream_connection_on_connection_shutdown`.
`env = true` models a non-NULL `napi_env`; `hostResolvable` models
whether `napi_get_reference_value` yields a non-NULL JS object for the
connection reference (the host wrapper has not been collected). Begins
with `AWS_FATAL_ASSERT(binding->connection != NULL)`; dispatches the
host shutdown callback only when the env is live, the binding is not
closed and the wrapper resolves; then always closes the binding,
releases the native connection, clears `connection`, and releases the
binding reference carried since `connect`. -/
def s_napi_event_stream_connection_on_connection_shutdown
    (env hostResolvable : Bool) (error_code : Nat) (binding : Binding) : Step :=
  match binding.connection with
  | none => Step.fatal
  | some conn =>
    let callbackEffs :=
      if env && !binding.is_closed then
        if binding.node_event_stream_client_connection_ref.isSome && hostResolvable then
          [Effect.hostShutdownCallback error_code]
        else []
      else []
    let closeResult := s_close_binding env binding
    let b2 := { closeResult.1 with connection := none, ref_count := closeResult.1.ref_count - 1 }
    Step.ok b2
      (callbackEffs ++ closeResult.2 ++ [Effect.nativeRelease conn, Effect.bindingRelease])

/-- Model of `s_napi_on_event_stream_client_connection_setup`. The
payload carries `(error_code, conn)`; the handler first stores the
connection on the binding (ownership of the initial native reference
transfers to the binding). If the env is live, the binding is not
closed, and the host wrapper resolves, the host setup callback is
dispatched; otherwise the close path runs: defensively close the
binding and, if a connection was produced, issue an immediate native
close on it. In all paths, the binding reference taken by `connect` is
released exactly when `binding->connection` is empty at the end. -/
def s_napi_on_event_stream_client_connection_setup
    (env hostResolvable : Bool) (error_code : Nat) (conn : Option Nat)
    (binding : Binding) : Binding × List Effect :=
  let b0 := { binding with connection := conn }
  let deliver := env && !binding.is_closed &&
    binding.node_event_stream_client_connection_ref.isSome && hostResolvable
  if deliver then
    let releaseEffs := if b0.connection.isNone then [Effect.bindingRelease] else []
    let b1 :=
      if b0.connection.isNone then { b0 with ref_count := b0.ref_count - 1 } else b0
    (b1, [Effect.hostSetupCallback error_code] ++ releaseEffs)
  else
    let closeResult := s_close_binding env b0
    let closeConnEffs :=
      match closeResult.1.connection with
      | some c => [Effect.nativeClose c]
      | none => []
    let releaseEffs :=
      if closeResult.1.connection.isNone then [Effect.bindingRelease] else []
    let b2 :=
      if closeResult.1.connection.isNone then
        { closeResult.1 with ref_count := closeResult.1.ref_count - 1 }
      else closeResult.1
    (b2, closeResult.2 ++ closeConnEffs ++ releaseEffs)

/-- Model of `s_aws_event_stream_client_connection_extern_finalize`,
invoked when the node external is garbage collected. If a connection is
present it is released and the field cleared (nothing else happens);
otherwise, if the binding is not yet closed, the binding is closed and
the construction reference is released. -/
def s_aws_event_stream_client_connection_extern_finalize
    (env : Bool) (binding : Binding) : Binding × List Effect :=
  match binding.connection with
  | some conn => ({ binding with connection := none }, [Effect.nativeRelease conn])
  | none =>
    if !binding.is_closed then
      let closeResult := s_close_binding env binding
      ({ closeResult.1 with ref_count := closeResult.1.ref_count - 1 },
        closeResult.2 ++ [Effect.bindingRelease])
    else (binding, [])

/-- Model of `aws_napi_event_stream_client_connection_connect` (current
revision, after the binding has been extracted from the argument).
A closed binding yields a recoverable `napi_throw_error`; a non-NULL
`connection` trips `AWS_FATAL_ASSERT`. Otherwise the setup threadsafe
function is installed, one binding reference is acquired, and the
native connect is invoked; `nativeOk` models its synchronous result.
On synchronous failure the reference is released and the last error is
thrown to the caller. -/
def aws_napi_event_stream_client_connection_connect
    (nativeOk : Bool) (binding : Binding) : Step :=
  if binding.is_closed then
    Step.err binding [Effect.throwError]
  else if binding.connection.isSome then
    Step.fatal
  else
    let b1 := { binding with on_connection_setup := some 1 }
    let b2 := { b1 with ref_count := b1.ref_count + 1 }
    if nativeOk then
      Step.ok b2 [Effect.bindingAcquire]
    else
      Step.err { b2 with ref_count := b2.ref_count - 1 }
        [Effect.bindingAcquire, Effect.bindingRelease, Effect.throwError]

/-- Model of `aws_napi_event_stream_client_connection_close` (after
argument extraction): delegates to `s_close_binding` with a live env. -/
def aws_napi_event_stream_client_connection_close (binding : Binding) :
    Binding × List Effect :=
  s_close_binding true binding

/-- Connection-options object passed from JS: the `hostName` property
(`none` models missing or non-string) and the `port` property (`none`
models missing or non-numeric, `some p` a numeric value `p`). -/
structure JsConnectionOptions where
  hostName : Option String
  port : Option Nat
deriving DecidableEq

/-- Modelled from the spec: `aws_napi_get_named_property_as_uint16` is a
node-utility helper of this repository that is not part of the
translation unit under src/. Per the spec the port must be "a valid
16-bit value" and `port=0` is an argument error (Scenario B), so the
property validates exactly when `0 < p < 2^16`. -/
def aws_napi_get_named_property_as_uint16 (port : Option Nat) : Option Nat :=
  match port with
  | some p => if 0 < p && p < 2 ^ 16 then some p else none
  | none => none

/-- Model of
`s_init_event_stream_connection_configuration_from_js_connection_configuration`:
requires a present host-name string and a valid port; returns the
updated binding and a success flag (`false` models
`aws_raise_error(AWS_ERROR_INVALID_ARGUMENT)`). The partially-updated
binding is returned even on failure, as in the source. -/
def s_init_event_stream_connection_configuration_from_js_connection_configuration
    (opts : JsConnectionOptions) (binding : Binding) : Binding × Bool :=
  match opts.hostName with
  | none => (binding, false)
  | some h =>
    let b1 := { binding with host := some h }
    match aws_napi_get_named_property_as_uint16 opts.port with
    | none => (b1, false)
    | some p => ({ b1 with port := p }, true)

/-- Outcome of `aws_napi_event_stream_client_connection_new`: an
argument error throws and returns NULL, leaving the calloc-ed binding
reachable only from the node external, whose garbage collection will
run the extern finalizer on it (`abandoned`). -/
inductive CreateResult where
  | argError (abandoned : Binding)
  | ok (b : Binding)
deriving DecidableEq

/-- The binding right after `aws_mem_calloc` and `aws_ref_count_init`:
all pointers NULL, `is_closed` false, ref count one (the construction
reference). -/
def initialBinding : Binding :=
  { ref_count := 1
    connection := none
    is_closed := false
    host := none
    port := 0
    socket_options := 0
    using_tls := false
    node_event_stream_client_connection_ref := none
    node_event_stream_client_connection_external_ref := none
    on_connection_setup := none
    on_connection_shutdown := none
    on_protocol_message := none }

/-- Model of the configuration-relevant spine of
`aws_napi_event_stream_client_connection_new`: allocate the binding with
its construction reference, create the external and the JS-connection
reference, then validate the configuration; on validation failure an
error is thrown and the binding is left to the external's finalizer.
On success the two threadsafe functions and the external reference are
installed. -/
def aws_napi_event_stream_client_connection_new
    (opts : JsConnectionOptions) : CreateResult :=
  let b1 := { initialBinding with node_event_stream_client_connection_ref := some 1 }
  let initResult :=
    s_init_event_stream_connection_configuration_from_js_connection_configuration opts b1
  if initResult.2 then
    let b3 := { initResult.1 with
      on_connection_shutdown := some 1, on_protocol_message := some 2 }
    CreateResult.ok
      { b3 with node_event_stream_client_connection_external_ref := some 2 }
  else
    CreateResult.argError initResult.1

/-- An acquire or release call on the binding's `aws_ref_count`. -/
inductive RefOp where
  | acquire
  | release
deriving DecidableEq

/-- Modelled from the spec: the semantics of `aws_ref_count` (an
external dependency; src/ holds only the wrappers
`s_aws_event_stream_client_connection_binding_acquire` and `_release`
and the `aws_ref_count_init` call registering
`s_aws_event_stream_client_connection_binding_on_zero`). Runs a
sequence of acquire/release calls from a given count, returning the
final count and how many times the zero-count finalizer fired, or
`none` when the sequence is invalid: operating on a finalized (zero
count) object, or any call after the finalizer has destroyed the
binding. The finalizer fires exactly at the release that brings the
count to zero. -/
def runRefCount : Nat → List RefOp → Option (Nat × Nat)
  | c, [] => some (c, 0)
  | 0, _ :: _ => none
  | c + 1, RefOp.acquire :: rest => runRefCount (c + 2) rest
  | 1, RefOp.release :: rest =>
    match rest with
    | [] => some (0, 1)
    | _ :: _ => none
  | c + 2, RefOp.release :: rest => runRefCount (c + 1) rest

/-- Modelled from the spec: the native collaborator's contract for
`aws_event_stream_rpc_client_connection_connect` — when the synchronous
call fails, no setup, shutdown or message callback is ever invoked for
that attempt; when it succeeds, exactly one setup callback follows. -/
def attemptDeliveries (nativeOk : Bool) (error_code : Nat) (conn : Option Nat) :
    List (Nat × Option Nat) :=
  if nativeOk then [(error_code, conn)] else []

/-- Iterated host-surface close. -/
def closeN (env : Bool) : Nat → Binding → Binding × List Effect
  | 0, b => (b, [])
  | n + 1, b =>
    let first := s_close_binding env b
    let rest := closeN env n first.1
    (rest.1, first.2 ++ rest.2)

/-- A fresh, open binding after a successful create, used as a concrete
evaluation point. -/
def sampleBinding : Binding :=
  { ref_count := 2
    connection := none
    is_closed := false
    host := some "localhost"
    port := 8033
    socket_options := 0
    using_tls := false
    node_event_stream_client_connection_ref := some 1
    node_event_stream_client_connection_external_ref := some 2
    on_connection_setup := some 1
    on_connection_shutdown := some 2
    on_protocol_message := some 3 }

/-- A binding that has been closed (refs detached) and has no
connection. -/
def closedBinding : Binding :=
  { sampleBinding with
    is_closed := true
    node_event_stream_client_connection_ref := none
    node_event_stream_client_connection_external_ref := none }

/-- A live, successfully-connected binding (holds a native connection). -/
def liveConnectedBinding : Binding :=
  { sampleBinding with connection := some 1 }

/- Helper lemmas. -/

theorem countEff_append (p : Effect → Bool) (l1 l2 : List Effect) :
    countEff p (l1 ++ l2) = countEff p l1 + countEff p l2 := by
  simp [countEff, List.filter_append]

theorem close_binding_state (env : Bool) (b : Binding) :
    (s_close_binding env b).1 = { b with
      is_closed := true,
      node_event_stream_client_connection_ref := none,
      node_event_stream_client_connection_external_ref := none } := rfl

theorem countEff_close_binding (p : Effect → Bool)
    (hp : ∀ r, p (Effect.deleteRef r) = false) (env : Bool) (b : Binding) :
    countEff p (s_close_binding env b).2 = 0 := by
  simp only [s_close_binding]
  cases env with
  | false => simp [countEff]
  | true =>
    cases b.node_event_stream_client_connection_external_ref <;>
      cases b.node_event_stream_client_connection_ref <;>
        simp [countEff, hp]

theorem setup_connection_eq (envP hA : Bool) (ec : Nat) (co : Option Nat) (b : Binding) :
    (s_napi_on_event_stream_client_connection_setup envP hA ec co b).1.connection = co := by
  simp only [s_napi_on_event_stream_client_connection_setup]
  split
  · cases co <;> simp
  · cases co <;> simp [s_close_binding]

theorem shutdown_ok_of_connection (envP hA : Bool) (ec : Nat) (b : Binding) (c : Nat)
    (h : b.connection = some c) :
    ∃ b2 e2,
      s_napi_event_stream_connection_on_connection_shutdown envP hA ec b = Step.ok b2 e2 ∧
      countEff Effect.isBindingRelease e2 = 1 ∧
      countEff Effect.isNativeRelease e2 = 1 ∧
      countEff Effect.isNativeClose e2 = 0 ∧
      (b.is_closed = true → countEff Effect.isHostShutdown e2 = 0) ∧
      b2.connection = none ∧ b2.is_closed = true := by
  simp only [s_napi_event_stream_connection_on_connection_shutdown, h]
  refine ⟨_, _, rfl, ?_, ?_, ?_, ?_, rfl, rfl⟩
  · rw [countEff_append, countEff_append, countEff_close_binding _ (fun r => rfl)]
    split
    · split <;> simp [countEff, Effect.isBindingRelease]
    · simp [countEff, Effect.isBindingRelease]
  · rw [countEff_append, countEff_append, countEff_close_binding _ (fun r => rfl)]
    split
    · split <;> simp [countEff, Effect.isNativeRelease]
    · simp [countEff, Effect.isNativeRelease]
  · rw [countEff_append, countEff_append, countEff_close_binding _ (fun r => rfl)]
    split
    · split <;> simp [countEff, Effect.isNativeClose]
    · simp [countEff, Effect.isNativeClose]
  · intro hcl
    rw [countEff_append, countEff_append, countEff_close_binding _ (fun r => rfl)]
    simp [hcl, countEff, Effect.isHostShutdown]

theorem setup_release_count (envP hA : Bool) (ec : Nat) (co : Option Nat) (b : Binding) :
    countEff Effect.isBindingRelease
      (s_napi_on_event_stream_client_connection_setup envP hA ec co b).2
      = if co = none then 1 else 0 := by
  simp only [s_napi_on_event_stream_client_connection_setup]
  split
  · cases co <;> simp [countEff, Effect.isBindingRelease, Effect.isHostSetup]
  · rw [countEff_append, countEff_append, countEff_close_binding _ (fun r => rfl),
      close_binding_state]
    cases co <;> simp [countEff, Effect.isBindingRelease, Effect.isNativeClose]

theorem setup_abandoned (envP hA : Bool) (ec : Nat) (co : Option Nat) (b : Binding)
    (hd : (envP && !b.is_closed &&
      b.node_event_stream_client_connection_ref.isSome && hA) = false) :
    countEff Effect.isHostSetup
      (s_napi_on_event_stream_client_connection_setup envP hA ec co b).2 = 0 ∧
    (s_napi_on_event_stream_client_connection_setup envP hA ec co b).1.is_closed = true ∧
    countEff Effect.isNativeClose
      (s_napi_on_event_stream_client_connection_setup envP hA ec co b).2
      = (if co = none then 0 else 1) ∧
    countEff Effect.isNativeRelease
      (s_napi_on_event_stream_client_connection_setup envP hA ec co b).2 = 0 := by
  have hni : ¬((envP && !b.is_closed &&
      b.node_event_stream_client_connection_ref.isSome && hA) = true) := by
    simp [hd]
  refine ⟨?_, ?_, ?_, ?_⟩ <;>
    simp only [s_napi_on_event_stream_client_connection_setup, if_neg hni]
  · rw [countEff_append, countEff_append, countEff_close_binding _ (fun r => rfl),
      close_binding_state]
    cases co <;> simp [countEff, Effect.isHostSetup, Effect.isNativeClose,
      Effect.isBindingRelease]
  · split <;> rfl
  · rw [countEff_append, countEff_append, countEff_close_binding _ (fun r => rfl),
      close_binding_state]
    cases co <;> simp [countEff, Effect.isNativeClose, Effect.isBindingRelease]
  · rw [countEff_append, countEff_append, countEff_close_binding _ (fun r => rfl),
      close_binding_state]
    cases co <;> simp [countEff, Effect.isNativeRelease, Effect.isNativeClose,
      Effect.isBindingRelease]

theorem close_idem (env : Bool) (b : Binding) :
    s_close_binding env (s_close_binding env b).1 = ((s_close_binding env b).1, []) := by
  cases b
  cases env <;> rfl

theorem closeN_after_close (env : Bool) (b : Binding) (n : Nat) :
    closeN env n (s_close_binding env b).1 = ((s_close_binding env b).1, []) := by
  induction n with
  | zero => rfl
  | succ m ih =>
    simp only [closeN]
    rw [close_idem]
    simp [ih]

theorem runRefCount_spec (ops : List RefOp) : ∀ c0 c f : Nat, 0 < c0 →
    runRefCount c0 ops = some (c, f) → (f = 1 ∧ c = 0) ∨ (f = 0 ∧ 0 < c) := by
  induction ops with
  | nil =>
    intro c0 c f h0 h
    simp [runRefCount] at h
    right
    omega
  | cons op rest ih =>
    intro c0 c f h0 h
    cases op with
    | acquire =>
      cases c0 with
      | zero => exact absurd h0 (by decide)
      | succ n =>
        simp only [runRefCount] at h
        exact ih (n + 2) c f (by omega) h
    | release =>
      cases c0 with
      | zero => exact absurd h0 (by decide)
      | succ n =>
        cases n with
        | zero =>
          cases rest with
          | nil =>
            simp only [runRefCount] at h
            left
            simp only [Option.some.injEq, Prod.mk.injEq] at h
            omega
          | cons x xs =>
            simp [runRefCount] at h
        | succ m =>
          simp only [runRefCount] at h
          exact ih (m + 1) c f (by omega) h

/- Claim theorems. -/

/-- C1: a connect attempt acquires exactly one binding reference in
`connect` (before invoking the native connect), and the reference is
retired by exactly one of two mutually exclusive terminal deliveries:
the setup delivery releases it exactly when `binding->connection` is
empty at the end of setup processing, and when a connection was
established the setup delivery releases nothing and the shutdown
delivery releases it exactly once. -/
theorem c1_outstanding_reference (b bs : Binding)
    (nativeOk envP hA envP2 hA2 : Bool) (ec ec2 : Nat) (co : Option Nat)
    (hclosed : b.is_closed = false) (hconn : b.connection = none) :
    countEff Effect.isBindingAcquire
      (aws_napi_event_stream_client_connection_connect nativeOk b).effects = 1 ∧
    countEff Effect.isBindingRelease
      (s_napi_on_event_stream_client_connection_setup envP hA ec co bs).2
      = (if co = none then 1 else 0) ∧
    (∀ c, co = some c →
      countEff Effect.isBindingRelease
        (s_napi_on_event_stream_client_connection_setup envP hA ec co bs).2 = 0 ∧
      ∃ b2 e2,
        s_napi_event_stream_connection_on_connection_shutdown envP2 hA2 ec2
          (s_napi_on_event_stream_client_connection_setup envP hA ec co bs).1
          = Step.ok b2 e2 ∧
        countEff Effect.isBindingRelease e2 = 1) := by
  refine ⟨?_, setup_release_count envP hA ec co bs, ?_⟩
  · simp only [aws_napi_event_stream_client_connection_connect, hclosed, hconn]
    cases nativeOk <;>
      simp [countEff, Step.effects, Effect.isBindingAcquire, Effect.isBindingRelease]
  · intro c hc
    constructor
    · rw [setup_release_count]
      simp [hc]
    · have hsc : (s_napi_on_event_stream_client_connection_setup
          envP hA ec co bs).1.connection = some c := by
        rw [setup_connection_eq, hc]
      obtain ⟨b2, e2, heq, h1, _, _, _, _, _⟩ :=
        shutdown_ok_of_connection envP2 hA2 ec2 _ c hsc
      exact ⟨b2, e2, heq, h1⟩

/-- Witness for C1 at a fresh open binding with a successful setup
payload carrying connection 5. -/
theorem c1_witness :
    sampleBinding.is_closed = false ∧ sampleBinding.connection = none ∧
    countEff Effect.isBindingAcquire
      (aws_napi_event_stream_client_connection_connect true sampleBinding).effects = 1 ∧
    countEff Effect.isBindingRelease
      (s_napi_on_event_stream_client_connection_setup true true 0 (some 5)
        sampleBinding).2 = (if (some 5 : Option Nat) = none then 1 else 0) ∧
    (∀ c, (some 5 : Option Nat) = some c →
      countEff Effect.isBindingRelease
        (s_napi_on_event_stream_client_connection_setup true true 0 (some 5)
          sampleBinding).2 = 0 ∧
      ∃ b2 e2,
        s_napi_event_stream_connection_on_connection_shutdown true true 0
          (s_napi_on_event_stream_client_connection_setup true true 0 (some 5)
            sampleBinding).1 = Step.ok b2 e2 ∧
        countEff Effect.isBindingRelease e2 = 1) :=
  ⟨rfl, rfl,
    c1_outstanding_reference sampleBinding sampleBinding true true true true true 0 0
      (some 5) rfl rfl⟩

/-- C2: the extern finalizer on a binding holding a live connection
releases only the native connection (it does not set `closed` and does
not release a binding reference) and clears the `connection` field; but
the shutdown delivery that later arrives for that connection does not
perform the claimed cleanup: it trips
`AWS_FATAL_ASSERT(binding->connection != NULL)` because the finalizer
already cleared the field. -/
theorem c2_finalize_then_shutdown_fatal :
    (s_aws_event_stream_client_connection_extern_finalize true
      liveConnectedBinding).2 = [Effect.nativeRelease 1] ∧
    (s_aws_event_stream_client_connection_extern_finalize true
      liveConnectedBinding).1.is_closed = false ∧
    (s_aws_event_stream_client_connection_extern_finalize true
      liveConnectedBinding).1.connection = none ∧
    countEff Effect.isBindingRelease
      (s_aws_event_stream_client_connection_extern_finalize true
        liveConnectedBinding).2 = 0 ∧
    (∀ envP hA : Bool, ∀ ec : Nat,
      s_napi_event_stream_connection_on_connection_shutdown envP hA ec
        (s_aws_event_stream_client_connection_extern_finalize true
          liveConnectedBinding).1 = Step.fatal) := by
  refine ⟨by decide, by decide, by decide, by decide, ?_⟩
  intro envP hA ec
  rfl

/-- C3: when setup delivery finds the binding closed, or the host proxy
reference missing or unresolvable, no host setup callback is dispatched,
the binding is defensively closed, and a produced connection receives
exactly one immediate native close from the setup path; the later
shutdown delivery then releases that native connection exactly once. -/
theorem c3_abandoned_setup (b : Binding) (envP hA envP2 hA2 : Bool) (ec ec2 : Nat)
    (co : Option Nat)
    (habandon : b.is_closed = true ∨
      b.node_event_stream_client_connection_ref = none ∨ hA = false) :
    countEff Effect.isHostSetup
      (s_napi_on_event_stream_client_connection_setup envP hA ec co b).2 = 0 ∧
    (s_napi_on_event_stream_client_connection_setup envP hA ec co b).1.is_closed
      = true ∧
    (∀ c, co = some c →
      countEff Effect.isNativeClose
        (s_napi_on_event_stream_client_connection_setup envP hA ec co b).2 = 1 ∧
      countEff Effect.isNativeRelease
        (s_napi_on_event_stream_client_connection_setup envP hA ec co b).2 = 0 ∧
      ∃ b2 e2,
        s_napi_event_stream_connection_on_connection_shutdown envP2 hA2 ec2
          (s_napi_on_event_stream_client_connection_setup envP hA ec co b).1
          = Step.ok b2 e2 ∧
        countEff Effect.isNativeRelease e2 = 1 ∧
        countEff Effect.isNativeClose e2 = 0 ∧
        b2.connection = none) := by
  have hd : (envP && !b.is_closed &&
      b.node_event_stream_client_connection_ref.isSome && hA) = false := by
    rcases habandon with h | h | h <;> simp [h]
  obtain ⟨ha1, ha2, ha3, ha4⟩ := setup_abandoned envP hA ec co b hd
  refine ⟨ha1, ha2, ?_⟩
  intro c hc
  refine ⟨by rw [ha3, hc]; rfl, ha4, ?_⟩
  have hsc : (s_napi_on_event_stream_client_connection_setup
      envP hA ec co b).1.connection = some c := by
    rw [setup_connection_eq, hc]
  obtain ⟨b2, e2, heq, _, h2, h3, _, h5, _⟩ :=
    shutdown_ok_of_connection envP2 hA2 ec2 _ c hsc
  exact ⟨b2, e2, heq, h2, h3, h5⟩

/-- Witness for C3 at a closed binding receiving a successful setup
payload carrying connection 7. -/
theorem c3_witness :
    (closedBinding.is_closed = true ∨
      closedBinding.node_event_stream_client_connection_ref = none ∨
      (true : Bool) = false) ∧
    countEff Effect.isHostSetup
      (s_napi_on_event_stream_client_connection_setup true true 3 (some 7)
        closedBinding).2 = 0 :=
  ⟨Or.inl rfl,
    (c3_abandoned_setup closedBinding true true true true 3 0 (some 7)
      (Or.inl rfl)).1⟩

/-- C4: when the synchronous native connect fails, `connect` releases
the reference it acquired before returning (the returned binding's
reference count equals the pre-call value), surfaces the failure as a
thrown error, emits no host or native-connection effect, and per the
native contract no setup/shutdown/message delivery ever occurs for the
attempt. -/
theorem c4_synchronous_connect_failure (b : Binding)
    (hclosed : b.is_closed = false) (hconn : b.connection = none) :
    aws_napi_event_stream_client_connection_connect false b
      = Step.err { b with on_connection_setup := some 1 }
          [Effect.bindingAcquire, Effect.bindingRelease, Effect.throwError] ∧
    ({ b with on_connection_setup := some 1 } : Binding).ref_count = b.ref_count ∧
    countEff Effect.isHostSetup
      (aws_napi_event_stream_client_connection_connect false b).effects = 0 ∧
    countEff Effect.isHostShutdown
      (aws_napi_event_stream_client_connection_connect false b).effects = 0 ∧
    countEff Effect.isNativeClose
      (aws_napi_event_stream_client_connection_connect false b).effects = 0 ∧
    countEff Effect.isNativeRelease
      (aws_napi_event_stream_client_connection_connect false b).effects = 0 ∧
    (∀ ec : Nat, ∀ co : Option Nat, attemptDeliveries false ec co = []) := by
  have hstep : aws_napi_event_stream_client_connection_connect false b
      = Step.err { b with on_connection_setup := some 1 }
          [Effect.bindingAcquire, Effect.bindingRelease, Effect.throwError] := by
    simp [aws_napi_event_stream_client_connection_connect, hclosed, hconn]
  refine ⟨hstep, rfl, ?_, ?_, ?_, ?_, fun ec co => rfl⟩ <;>
    rw [hstep] <;>
      simp [countEff, Step.effects, Effect.isHostSetup, Effect.isHostShutdown,
        Effect.isNativeClose, Effect.isNativeRelease]

/-- Witness for C4 at a fresh open binding. -/
theorem c4_witness :
    sampleBinding.is_closed = false ∧ sampleBinding.connection = none ∧
    aws_napi_event_stream_client_connection_connect false sampleBinding
      = Step.err { sampleBinding with on_connection_setup := some 1 }
          [Effect.bindingAcquire, Effect.bindingRelease, Effect.throwError] :=
  ⟨rfl, rfl, (c4_synchronous_connect_failure sampleBinding rfl rfl).1⟩

/-- C5: `create` fails with an argument error when the host name is
missing or the port property is not a valid 16-bit port (in particular
`port = 0`); the abandoned binding still holds only its construction
reference, never a connection, and the external's finalizer drives its
reference count to zero, so no binding is left alive. -/
theorem c5_create_argument_errors (opts : JsConnectionOptions) (env : Bool)
    (h : opts.hostName = none ∨
      aws_napi_get_named_property_as_uint16 opts.port = none) :
    ∃ ab, aws_napi_event_stream_client_connection_new opts
        = CreateResult.argError ab ∧
      ab.connection = none ∧ ab.is_closed = false ∧ ab.ref_count = 1 ∧
      (s_aws_event_stream_client_connection_extern_finalize env ab).1.ref_count
        = 0 := by
  cases hh : opts.hostName with
  | none =>
    refine ⟨{ initialBinding with
      node_event_stream_client_connection_ref := some 1 }, ?_, rfl, rfl, rfl, rfl⟩
    simp [aws_napi_event_stream_client_connection_new,
      s_init_event_stream_connection_configuration_from_js_connection_configuration,
      hh]
  | some hostv =>
    have hport : aws_napi_get_named_property_as_uint16 opts.port = none := by
      rcases h with h | h
      · rw [hh] at h
        exact absurd h (by simp)
      · exact h
    refine ⟨{ initialBinding with
      node_event_stream_client_connection_ref := some 1,
      host := some hostv }, ?_, rfl, rfl, rfl, rfl⟩
    simp [aws_napi_event_stream_client_connection_new,
      s_init_event_stream_connection_configuration_from_js_connection_configuration,
      hh, hport]

/-- Witness for C5: create with host present and port 0 is an argument
error. -/
theorem c5_witness :
    aws_napi_get_named_property_as_uint16 (some 0) = none ∧
    (∃ ab, aws_napi_event_stream_client_connection_new ⟨some "localhost", some 0⟩
        = CreateResult.argError ab ∧
      ab.connection = none ∧ ab.is_closed = false ∧ ab.ref_count = 1 ∧
      (s_aws_event_stream_client_connection_extern_finalize true ab).1.ref_count
        = 0) :=
  ⟨by decide,
    c5_create_argument_errors ⟨some "localhost", some 0⟩ true (Or.inr (by decide))⟩

/-- C6 counterexample: in the current revision, calling connect on a
closed binding is handled by `napi_throw_error` and an early return — a
recoverable error surfaced to the caller, not a process-terminating
fault. -/
theorem c6_counterexample :
    aws_napi_event_stream_client_connection_connect true closedBinding
      = Step.err closedBinding [Effect.throwError] ∧
    aws_napi_event_stream_client_connection_connect true closedBinding
      ≠ Step.fatal := by
  decide

/-- C6 amended: calling connect while a connection is present trips
`AWS_FATAL_ASSERT` (a programming-error fault); calling connect after
close is a recoverable error thrown to the caller. -/
theorem c6_connect_preconditions (b : Binding) (nativeOk : Bool) :
    (b.is_closed = true →
      aws_napi_event_stream_client_connection_connect nativeOk b
        = Step.err b [Effect.throwError]) ∧
    (b.is_closed = false → b.connection.isSome = true →
      aws_napi_event_stream_client_connection_connect nativeOk b = Step.fatal) := by
  constructor
  · intro h
    simp [aws_napi_event_stream_client_connection_connect, h]
  · intro h1 h2
    simp [aws_napi_event_stream_client_connection_connect, h1, h2]

/-- Witness for the amended C6 on a closed binding and on a connected
binding. -/
theorem c6_witness :
    closedBinding.is_closed = true ∧
    aws_napi_event_stream_client_connection_connect true closedBinding
      = Step.err closedBinding [Effect.throwError] ∧
    liveConnectedBinding.is_closed = false ∧
    liveConnectedBinding.connection.isSome = true ∧
    aws_napi_event_stream_client_connection_connect true liveConnectedBinding
      = Step.fatal :=
  ⟨rfl, (c6_connect_preconditions closedBinding true).1 rfl, rfl, rfl,
    (c6_connect_preconditions liveConnectedBinding true).2 rfl rfl⟩

/-- C7: `closed` is monotonic — once true it stays true through close,
connect, the extern finalizer, and the setup and shutdown deliveries —
and once it is true neither the setup nor the shutdown delivery invokes
a host callback. -/
theorem c7_closed_monotonic (b : Binding) (env hA nativeOk : Bool) (ec : Nat)
    (co : Option Nat) (h : b.is_closed = true) :
    (s_close_binding env b).1.is_closed = true ∧
    (aws_napi_event_stream_client_connection_close b).1.is_closed = true ∧
    aws_napi_event_stream_client_connection_connect nativeOk b
      = Step.err b [Effect.throwError] ∧
    (s_aws_event_stream_client_connection_extern_finalize env b).1.is_closed
      = true ∧
    (s_napi_on_event_stream_client_connection_setup env hA ec co b).1.is_closed
      = true ∧
    countEff Effect.isHostSetup
      (s_napi_on_event_stream_client_connection_setup env hA ec co b).2 = 0 ∧
    (∀ b2 e2,
      s_napi_event_stream_connection_on_connection_shutdown env hA ec b
        = Step.ok b2 e2 →
      b2.is_closed = true ∧ countEff Effect.isHostShutdown e2 = 0) := by
  have hd : (env && !b.is_closed &&
      b.node_event_stream_client_connection_ref.isSome && hA) = false := by
    simp [h]
  obtain ⟨ha1, ha2, _, _⟩ := setup_abandoned env hA ec co b hd
  refine ⟨rfl, rfl, ?_, ?_, ha2, ha1, ?_⟩
  · simp [aws_napi_event_stream_client_connection_connect, h]
  · simp only [s_aws_event_stream_client_connection_extern_finalize]
    cases hc : b.connection with
    | none => simp [h]
    | some c => simp [h]
  · intro b2 e2 heq
    cases hc : b.connection with
    | none =>
      rw [show s_napi_event_stream_connection_on_connection_shutdown env hA ec b
          = Step.fatal by
        simp [s_napi_event_stream_connection_on_connection_shutdown, hc]] at heq
      exact absurd heq (by simp)
    | some c =>
      obtain ⟨b3, e3, heq2, _, _, _, h4, _, h6⟩ :=
        shutdown_ok_of_connection env hA ec b c hc
      rw [heq2] at heq
      have hb : b3 = b2 := (Step.ok.injEq b3 e3 b2 e2 ▸ heq).1
      have he : e3 = e2 := (Step.ok.injEq b3 e3 b2 e2 ▸ heq).2
      exact ⟨hb ▸ h6, he ▸ h4 h⟩

/-- Witness for C7 at a closed binding. -/
theorem c7_witness :
    closedBinding.is_closed = true ∧
    countEff Effect.isHostSetup
      (s_napi_on_event_stream_client_connection_setup true true 0 none
        closedBinding).2 = 0 :=
  ⟨rfl, (c7_closed_monotonic closedBinding true true true 0 none rfl).2.2.2.2.2.1⟩

/-- C8: starting from the single construction reference, any valid
sequence of acquire/release calls either ends with the count still
positive and the zero-count finalizer never fired, or ends exactly at
zero with the finalizer fired exactly once; the model rejects any call
after the finalizer has run, so it can never fire twice or while a
reference is outstanding. -/
theorem c8_finalizer_exactly_once (ops : List RefOp) (c f : Nat)
    (h : runRefCount 1 ops = some (c, f)) :
    f ≤ 1 ∧ ((f = 1 ∧ c = 0) ∨ (f = 0 ∧ 0 < c)) := by
  have hs := runRefCount_spec ops 1 c f (by decide) h
  refine ⟨?_, hs⟩
  rcases hs with ⟨h1, _⟩ | ⟨h1, _⟩ <;> omega

/-- Witness for C8: acquire, then two releases retire the binding and
fire the finalizer once. -/
theorem c8_witness :
    runRefCount 1 [RefOp.acquire, RefOp.release, RefOp.release] = some (0, 1) ∧
    (1 ≤ 1 ∧ ((1 = 1 ∧ 0 = 0) ∨ (1 = 0 ∧ 0 < 0))) :=
  ⟨by decide,
    c8_finalizer_exactly_once [RefOp.acquire, RefOp.release, RefOp.release] 0 1
      (by decide)⟩

/-- C9: close is idempotent — for every binding state and every N > 0,
N host-surface closes produce the same final state and the same
accumulated observable effects as a single close (the repeat closes
find the references already detached and do nothing). -/
theorem c9_close_idempotent (env : Bool) (b : Binding) (n : Nat) (h : 0 < n) :
    closeN env n b = s_close_binding env b := by
  cases n with
  | zero => exact absurd h (by decide)
  | succ m =>
    simp only [closeN]
    rw [closeN_after_close]
    simp

/-- Witness for C9: three closes of a fresh binding equal one close. -/
theorem c9_witness :
    0 < 3 ∧ closeN true 3 sampleBinding = s_close_binding true sampleBinding :=
  ⟨by decide, c9_close_idempotent true sampleBinding 3 (by decide)⟩

/-- C10: the host-surface close mutates only the closed flag and the two
host reference fields; the connection, the three dispatcher handles, the
cached configuration and the binding reference count are unchanged. -/
theorem c10_close_frame (b : Binding) :
    (aws_napi_event_stream_client_connection_close b).1.is_closed = true ∧
    (aws_napi_event_stream_client_connection_close
      b).1.node_event_stream_client_connection_ref = none ∧
    (aws_napi_event_stream_client_connection_close
      b).1.node_event_stream_client_connection_external_ref = none ∧
    (aws_napi_event_stream_client_connection_close b).1.connection
      = b.connection ∧
    (aws_napi_event_stream_client_connection_close b).1.on_connection_setup
      = b.on_connection_setup ∧
    (aws_napi_event_stream_client_connection_close b).1.on_connection_shutdown
      = b.on_connection_shutdown ∧
    (aws_napi_event_stream_client_connection_close b).1.on_protocol_message
      = b.on_protocol_message ∧
    (aws_napi_event_stream_client_connection_close b).1.host = b.host ∧
    (aws_napi_event_stream_client_connection_close b).1.port = b.port ∧
    (aws_napi_event_stream_client_connection_close b).1.socket_options
      = b.socket_options ∧
    (aws_napi_event_stream_client_connection_close b).1.using_tls
      = b.using_tls ∧
    (aws_napi_event_stream_client_connection_close b).1.ref_count
      = b.ref_count :=
  ⟨rfl, rfl, rfl, rfl, rfl, rfl, rfl, rfl, rfl, rfl, rfl, rfl⟩

end EventStream
